import Mathlib

set_option maxHeartbeats 1000000
set_option linter.unusedVariables false

/-! Shallow embedding of the tensor graph builder
(`intel_npu_acceleration_library/backend/tensor.py`), the operation registry
(`backend/ops.py`) and the quantized matmul client (`backend/qmatmul.py`).

The native backend behind the foreign-function boundary is modelled as an
explicit, append-only graph state: every factory dispatch commits one node
record and returns a fresh node reference, and shape/rank/dtype queries read
the stored records back.  Python exceptions are modelled as explicit error
values, and the backend state is threaded through every operation, so a
failure still returns the (possibly already extended) graph state. -/

/-- Host-side semantic dtypes (`intel_npu_acceleration_library.dtypes`),
together with `np.bool` which the code returns for type code 2. -/
inductive NPUDtype where
  | np_bool
  | bfloat16
  | float16
  | float32
  | float64
  | int4
  | int8
  | int16
  | int32
  | int64
deriving DecidableEq

/-- Host-side failures raised by the tensor layer. -/
inductive TensorError where
  | ownershipMismatch
  | unsupportedDtype
  | indexError
  | typeError
deriving DecidableEq

instance exceptDecidableEq {ε α : Type} [DecidableEq ε] [DecidableEq α] :
    DecidableEq (Except ε α) := fun a b =>
  match a, b with
  | Except.ok x, Except.ok y =>
    if h : x = y then isTrue (by rw [h])
    else isFalse (fun hc => h (Except.ok.inj hc))
  | Except.error x, Except.error y =>
    if h : x = y then isTrue (by rw [h])
    else isFalse (fun hc => h (Except.error.inj hc))
  | Except.ok _, Except.error _ => isFalse (fun hc => Except.noConfusion hc)
  | Except.error _, Except.ok _ => isFalse (fun hc => Except.noConfusion hc)

/-- A scalar parameter forwarded across the foreign boundary after the node
references: an integer (e.g. an unsqueeze axis) or a list of axis indices
(a transpose permutation). -/
inductive Param where
  | intParam : Int → Param
  | natListParam : List Nat → Param
deriving DecidableEq

/-- One node committed to the backend-resident graph.  Modelled from the spec:
the backend records, for every node, the owning graph context, the operation
name, the operand node references and scalar parameters in dispatch order, and
it is the sole authority for the node's shape and integer dtype code. -/
structure NodeRecord where
  factoryId : Nat
  op : String
  inputs : List Nat
  params : List Param
  shape : List Nat
  dtypeCode : Int
deriving DecidableEq, Inhabited

/-- The backend-resident graph: an append-only list of node records.  A node
reference is an index into this list. -/
structure BackendState where
  nodes : List NodeRecord
deriving DecidableEq

/-- Modelled from the spec: `shape_size(node) -> int`, the backend rank query
(`backend_lib.op_shape_size`). -/
def op_shape_size (s : BackendState) (node : Nat) : Nat :=
  ((s.nodes.getD node default).shape).length

/-- Modelled from the spec: `shape_dim(node, index) -> int`, the backend
per-axis extent query (`backend_lib.op_shape`). -/
def op_shape (s : BackendState) (node : Nat) (i : Nat) : Nat :=
  (s.nodes.getD node default).shape.getD i 0

/-- Modelled from the spec: `dtype_code(node) -> int`, the backend type-tag
query (`backend_lib.op_dtype`). -/
def op_dtype (s : BackendState) (node : Nat) : Int :=
  (s.nodes.getD node default).dtypeCode

/-- Modelled from the spec: the shape the backend assigns to a freshly
committed node.  The spec fixes transpose (the output axes follow the given
permutation, which swaps the last two); elementwise and unary ops preserve the
operand shape, which the default case covers, and no claim relies on the other
operations' output shapes. -/
def opOutShape (op : String) (inShapes : List (List Nat)) (args : List Param) : List Nat :=
  if op = "transpose" then
    match args with
    | [Param.natListParam perm] => perm.map (fun i => (inShapes.headD []).getD i 0)
    | _ => inShapes.headD []
  else inShapes.headD []

/-- Modelled from the spec: dynamic operation dispatch on the owning factory —
invoke the backend op constructor named `op` with the node references and the
scalar parameters in that order, committing one new node to the graph and
returning the fresh node reference (the new index). -/
def dispatch (s : BackendState) (fid : Nat) (op : String) (nodeRefs : List Nat)
    (args : List Param) : Nat × BackendState :=
  let inShapes := nodeRefs.map (fun n => (s.nodes.getD n default).shape)
  let outDtype := (s.nodes.getD (nodeRefs.headD 0) default).dtypeCode
  (s.nodes.length, ⟨s.nodes ++ [⟨fid, op, nodeRefs, args, opOutShape op inShapes args, outDtype⟩]⟩)

/-- Modelled from the spec: `parameter(shape, dtype) -> node`, allocating a
graph input node whose shape and dtype code the backend stores. -/
def parameter (s : BackendState) (fid : Nat) (shape : List Nat) (dtypeCode : Int) :
    Nat × BackendState :=
  (s.nodes.length, ⟨s.nodes ++ [⟨fid, "parameter", [], [], shape, dtypeCode⟩]⟩)

/-- `Tensor` (tensor.py): a host handle holding the owning factory and the
opaque node reference; shape and dtype are never stored host-side. -/
structure Tensor where
  factory : Nat
  node : Nat
deriving DecidableEq

/-- `__generate_op` (tensor.py): check that all operand handles share one
factory (`len({tensor.factory for tensor in tensors}) == 1`), raising
`ValueError` — the ownership-mismatch error — otherwise, before any foreign
call; on success extract the node references in input order, dispatch the
factory operation named `op` on them followed by the scalar parameters, and
wrap the returned node reference in a new handle with the same owner. -/
def generate_op (s : BackendState) (tensors : List Tensor) (op : String)
    (args : List Param) : Except TensorError Tensor × BackendState :=
  if (tensors.map (fun t => t.factory)).dedup.length = 1 then
    let factory := (tensors.headD ⟨0, 0⟩).factory
    let nodeRefs := tensors.map (fun t => t.node)
    let (newNode, s1) := dispatch s factory op nodeRefs args
    (Except.ok ⟨factory, newNode⟩, s1)
  else (Except.error TensorError.ownershipMismatch, s)

/-- `Tensor.shape` (tensor.py): one rank query followed by one per-axis query
for each axis; nothing is cached host-side. -/
def Tensor.shape (a : Tensor) (s : BackendState) : List Nat :=
  (List.range (op_shape_size s a.node)).map (fun i => op_shape s a.node i)

/-- The if/elif chain in the body of `Tensor.dtype` (tensor.py), mapping the
backend's integer type code to a host dtype; any unmapped code raises
`RuntimeError("Unsupported dtype")`. -/
def dtype_of_code (c : Int) : Except TensorError NPUDtype :=
  if c = 2 then Except.ok NPUDtype.np_bool
  else if c = 3 then Except.ok NPUDtype.bfloat16
  else if c = 4 then Except.ok NPUDtype.float16
  else if c = 5 then Except.ok NPUDtype.float32
  else if c = 6 then Except.ok NPUDtype.float64
  else if c = 7 then Except.ok NPUDtype.int4
  else if c = 8 then Except.ok NPUDtype.int8
  else if c = 9 then Except.ok NPUDtype.int16
  else if c = 10 then Except.ok NPUDtype.int32
  else if c = 11 then Except.ok NPUDtype.int64
  else Except.error TensorError.unsupportedDtype

/-- `Tensor.dtype` (tensor.py): query the integer type code from the backend,
then map it through the fixed table. -/
def Tensor.dtype (a : Tensor) (s : BackendState) : Except TensorError NPUDtype :=
  dtype_of_code (op_dtype s a.node)

/-- `Tensor.__add__`: `__generate_op([self, other], "eltwise_add")`. -/
def Tensor.add (a other : Tensor) (s : BackendState) :
    Except TensorError Tensor × BackendState :=
  generate_op s [a, other] "eltwise_add" []

/-- `Tensor.__neg__`: `__generate_op([self], "negative")`. -/
def Tensor.neg (a : Tensor) (s : BackendState) :
    Except TensorError Tensor × BackendState :=
  generate_op s [a] "negative" []

/-- `Tensor.__sub__`: `__generate_op([self, -other], "eltwise_add")` — the
negation of `other` is dispatched first, then the addition. -/
def Tensor.sub (a other : Tensor) (s : BackendState) :
    Except TensorError Tensor × BackendState :=
  match Tensor.neg other s with
  | (Except.ok negOther, s1) => generate_op s1 [a, negOther] "eltwise_add" []
  | (Except.error e, s1) => (Except.error e, s1)

/-- `Tensor.__mul__`: `__generate_op([self, other], "eltwise_mul")`. -/
def Tensor.mul (a other : Tensor) (s : BackendState) :
    Except TensorError Tensor × BackendState :=
  generate_op s [a, other] "eltwise_mul" []

/-- `Tensor.__truediv__`: `__generate_op([self, other], "eltwise_div")`. -/
def Tensor.div (a other : Tensor) (s : BackendState) :
    Except TensorError Tensor × BackendState :=
  generate_op s [a, other] "eltwise_div" []

/-- `Tensor.__matmul__`: `__generate_op([self, other], "matmul")`. -/
def Tensor.matmul (a other : Tensor) (s : BackendState) :
    Except TensorError Tensor × BackendState :=
  generate_op s [a, other] "matmul" []

/-- `Tensor.T` (tensor.py): build `input_order = list(range(rank))`, swap its
last two entries (Python raises `IndexError` when the rank is below 2, before
anything is dispatched), then emit one transpose op with the permutation as
its scalar parameter. -/
def Tensor.T (a : Tensor) (s : BackendState) :
    Except TensorError Tensor × BackendState :=
  let n := (Tensor.shape a s).length
  if n < 2 then (Except.error TensorError.indexError, s)
  else
    let input_order := ((List.range n).set (n - 1) (n - 2)).set (n - 2) (n - 1)
    generate_op s [a] "transpose" [Param.natListParam input_order]

/-- `Tensor.squeeze`: `__generate_op([self], "squeeze")`. -/
def Tensor.squeeze (a : Tensor) (s : BackendState) :
    Except TensorError Tensor × BackendState :=
  generate_op s [a] "squeeze" []

/-- `Tensor.unsqueeze`: `__generate_op([self], "unsqueeze", axis)`. -/
def Tensor.unsqueeze (a : Tensor) (axis : Int) (s : BackendState) :
    Except TensorError Tensor × BackendState :=
  generate_op s [a] "unsqueeze" [Param.intParam axis]

/-- A numpy scalar as returned by `np.product` applied to a list of Python
ints: a nonempty list converts to an integer array and the product is an
integer scalar, while the empty list converts to a float64 array, so the
product comes back as the float scalar `1.0` (exactly representable; only its
integer value is tracked here, never any rounding). -/
inductive NpScalar where
  | intScalar : Nat → NpScalar
  | floatScalar : Nat → NpScalar
deriving DecidableEq

/-- `np.product` on the shape list. -/
def np_product (l : List Nat) : NpScalar :=
  match l with
  | [] => NpScalar.floatScalar 1
  | _ => NpScalar.intScalar l.prod

/-- The body of `Tensor.__len__` (tensor.py): `np.product(self.shape)`. -/
def Tensor.len_method (a : Tensor) (s : BackendState) : NpScalar :=
  np_product (Tensor.shape a s)

/-- The `len()` builtin applied to a tensor: it calls `__len__` and requires
an integer result (the `__index__` protocol); a numpy float scalar result
raises `TypeError`. -/
def Tensor.len_call (a : Tensor) (s : BackendState) : Except TensorError Nat :=
  match Tensor.len_method a s with
  | NpScalar.intScalar n => Except.ok n
  | NpScalar.floatScalar _ => Except.error TensorError.typeError

/-- `create_tensor` (tensor.py): allocate a parameter node through the factory
and wrap it in a handle owned by that factory. -/
def create_tensor (s : BackendState) (factory : Nat) (shape : List Nat)
    (dtypeCode : Int) : Tensor × BackendState :=
  let (node, s1) := parameter s factory shape dtypeCode
  (⟨factory, node⟩, s1)

/-- Scalar parameter type descriptors used by the registry
(`ctypes.c_float`, `ctypes.c_bool`). -/
inductive CParamType where
  | c_float
  | c_bool
deriving DecidableEq

/-- `SupportedOp` (ops.py): name, required input arity and the ordered scalar
parameter types, empty by default. -/
structure SupportedOp where
  name : String
  inputs : Nat
  parameters : List CParamType := []
deriving DecidableEq

/-- The literal table built by the body of `get_supported_ops` (ops.py). -/
def supported_ops_table : List SupportedOp :=
  [⟨"matmul", 2, []⟩,
   ⟨"eltwise_add", 2, []⟩,
   ⟨"eltwise_mul", 2, []⟩,
   ⟨"eltwise_div", 2, []⟩,
   ⟨"abs_act", 1, []⟩,
   ⟨"acos_act", 1, []⟩,
   ⟨"asin_act", 1, []⟩,
   ⟨"atan_act", 1, []⟩,
   ⟨"ceiling", 1, []⟩,
   ⟨"clamp", 1, [CParamType.c_float, CParamType.c_float]⟩,
   ⟨"cos_act", 1, []⟩,
   ⟨"cosh_act", 1, []⟩,
   ⟨"erf_act", 1, []⟩,
   ⟨"elu", 1, [CParamType.c_float]⟩,
   ⟨"exp_act", 1, []⟩,
   ⟨"floor_act", 1, []⟩,
   ⟨"grn", 1, [CParamType.c_float]⟩,
   ⟨"gelu", 1, []⟩,
   ⟨"log_act", 1, []⟩,
   ⟨"negative", 1, []⟩,
   ⟨"relu", 1, []⟩,
   ⟨"sigmoid", 1, []⟩,
   ⟨"sign", 1, []⟩,
   ⟨"sin_act", 1, []⟩,
   ⟨"sinh_act", 1, []⟩,
   ⟨"sqrt_act", 1, []⟩,
   ⟨"tan_act", 1, []⟩,
   ⟨"tanh_act", 1, []⟩,
   ⟨"acosh_act", 1, []⟩,
   ⟨"asinh_act", 1, []⟩,
   ⟨"atanh_act", 1, []⟩,
   ⟨"hswish", 1, []⟩,
   ⟨"mish", 1, []⟩,
   ⟨"softplus", 1, []⟩,
   ⟨"hsigmoid", 1, []⟩,
   ⟨"round_act", 1, []⟩,
   ⟨"softsign", 1, []⟩,
   ⟨"softmax", 1, []⟩,
   ⟨"swish", 1, []⟩,
   ⟨"convert_to_fp16", 1, []⟩,
   ⟨"scaled_dot_product_attention", 4, [CParamType.c_bool]⟩]

/-- The `lru_cache` cell guarding `get_supported_ops` (no arguments, so a
single optional cached value). -/
structure OpsCache where
  cached : Option (List SupportedOp)
deriving DecidableEq

/-- `get_supported_ops` under `@lru_cache(maxsize=None)`: return the cached
table when present, otherwise build the literal table and cache it. -/
def get_supported_ops (c : OpsCache) : List SupportedOp × OpsCache :=
  match c.cached with
  | some v => (v, c)
  | none => (supported_ops_table, ⟨some supported_ops_table⟩)

/-- The shape configuration a `QMatMul` instance stores
(`inC`, `outC`, `batch` from qmatmul.py). -/
structure QMatMulCfg where
  inC : Nat
  outC : Nat
  batch : Nat
deriving DecidableEq

/-- Failures of `QMatMul.run`: the three `RuntimeError` branches, carrying the
shape interpolated into each message (the scale branch interpolates `W.shape`,
exactly as the source does), plus numpy's `IndexError` from indexing a
too-short shape tuple. -/
inductive QErr where
  | inputShapeMismatch : List Nat → QErr
  | weightShapeMismatch : List Nat → QErr
  | scaleShapeMismatch : List Nat → QErr
  | indexError
deriving DecidableEq

/-- Indexing a numpy shape tuple: `shape[i]`, raising `IndexError` when the
index is out of range. -/
def npShapeAt (shape : List Nat) (i : Nat) : Except QErr Nat :=
  match shape.get? i with
  | some v => Except.ok v
  | none => Except.error QErr.indexError

/-- `QMatMul.run` (qmatmul.py): three guard branches — input, weight and
scale — each written as `not (X.shape[0] == self.batch and X.shape[1] ==
self.inC)` on the activation `X` (the weight and scale branches repeat the
input condition verbatim, with short-circuit evaluation), followed by the
out-of-scope execution step `super().run`, modelled as success. -/
def QMatMul.run (cfg : QMatMulCfg) (xShape wShape scaleShape : List Nat) :
    Except QErr Unit :=
  match npShapeAt xShape 0 with
  | Except.error e => Except.error e
  | Except.ok x0 =>
    if x0 = cfg.batch then
      match npShapeAt xShape 1 with
      | Except.error e => Except.error e
      | Except.ok x1 =>
        if x1 = cfg.inC then
          match npShapeAt xShape 0 with
          | Except.error e => Except.error e
          | Except.ok y0 =>
            if y0 = cfg.batch then
              match npShapeAt xShape 1 with
              | Except.error e => Except.error e
              | Except.ok y1 =>
                if y1 = cfg.inC then
                  match npShapeAt xShape 0 with
                  | Except.error e => Except.error e
                  | Except.ok z0 =>
                    if z0 = cfg.batch then
                      match npShapeAt xShape 1 with
                      | Except.error e => Except.error e
                      | Except.ok z1 =>
                        if z1 = cfg.inC then Except.ok ()
                        else Except.error (QErr.scaleShapeMismatch wShape)
                    else Except.error (QErr.scaleShapeMismatch wShape)
                else Except.error (QErr.weightShapeMismatch wShape)
            else Except.error (QErr.weightShapeMismatch wShape)
        else Except.error (QErr.inputShapeMismatch xShape)
    else Except.error (QErr.inputShapeMismatch xShape)

/-- Unwrap a successful result, with a fallback for the error case. -/
def okD {ε α : Type} (e : Except ε α) (d : α) : α :=
  match e with
  | Except.ok v => v
  | Except.error _ => d

/-- The committed graph is only extended by an operation: every node index
that was valid before still holds the same record afterwards. -/
def preservesGraph (s : BackendState) (p : Except TensorError Tensor × BackendState) : Prop :=
  p.2.nodes.take s.nodes.length = s.nodes

/-- A successful result is a freshly constructed handle: its node reference
differs from every operand node reference. -/
def freshResult (p : Except TensorError Tensor × BackendState) (opnds : List Nat) : Prop :=
  ∀ t : Tensor, p.1 = Except.ok t → ∀ n ∈ opnds, t.node ≠ n

theorem getD_append_self {α : Type} (l l2 : List α) (x d : α) :
    (l ++ x :: l2).getD l.length d = x := by
  induction l with
  | nil => rfl
  | cons a t ih => simpa using ih

theorem getD_append_lt {α : Type} (l l2 : List α) (i : Nat) (d : α)
    (h : i < l.length) : (l ++ l2).getD i d = l.getD i d := by
  rw [List.getD_eq_getElem?_getD, List.getD_eq_getElem?_getD,
    List.getElem?_append, if_pos h]

theorem range_map_getD {α : Type} (l : List α) (d : α) :
    (List.range l.length).map (fun i => l.getD i d) = l := by
  induction l with
  | nil => rfl
  | cons a t ih =>
    rw [List.length_cons, List.range_succ_eq_map, List.map_cons, List.map_map]
    simp only [Function.comp_def, List.getD_cons_succ, List.getD_cons_zero]
    exact congrArg (a :: ·) ih

theorem dedup_all_eq {l : List Nat} {f : Nat} (hne : l ≠ [])
    (hf : ∀ x ∈ l, x = f) : l.dedup = [f] := by
  induction l with
  | nil => cases hne rfl
  | cons a t ih =>
    have ha : a = f := hf a (List.mem_cons_self a t)
    subst ha
    cases t with
    | nil => simp
    | cons b u =>
      have hb : ∀ x ∈ b :: u, x = a := fun x hx => hf x (List.mem_cons_of_mem a hx)
      have ht : (b :: u).dedup = [a] := ih (by simp) hb
      have hmem : a ∈ b :: u := by
        have : b = a := hb b (List.mem_cons_self b u)
        rw [← this]
        exact List.mem_cons_self b u
      rw [List.dedup_cons_of_mem hmem, ht]

theorem generate_op_ok (s : BackendState) (ts : List Tensor) (op : String)
    (args : List Param) (f : Nat) (hne : ts ≠ []) (hf : ∀ t ∈ ts, t.factory = f) :
    generate_op s ts op args =
      (Except.ok ⟨f, s.nodes.length⟩,
        ⟨s.nodes ++ [⟨f, op, ts.map (fun t => t.node), args,
          opOutShape op ((ts.map (fun t => t.node)).map
            (fun n => (s.nodes.getD n default).shape)) args,
          (s.nodes.getD ((ts.map (fun t => t.node)).headD 0) default).dtypeCode⟩]⟩) := by
  have hmapne : ts.map (fun t => t.factory) ≠ [] := by
    cases ts with
    | nil => cases hne rfl
    | cons a t => simp
  have hmapf : ∀ x ∈ ts.map (fun t => t.factory), x = f := by
    intro x hx
    obtain ⟨t, ht, rfl⟩ := List.mem_map.mp hx
    exact hf t ht
  have hd : (ts.map (fun t => t.factory)).dedup = [f] := dedup_all_eq hmapne hmapf
  obtain ⟨t0, rest, rfl⟩ := List.exists_cons_of_ne_nil hne
  have h0 : t0.factory = f := hf t0 (List.mem_cons_self t0 rest)
  unfold generate_op dispatch
  rw [hd]
  simp [h0]

theorem generate_op_frame (s : BackendState) (ts : List Tensor) (op : String)
    (args : List Param) :
    (generate_op s ts op args).2.nodes.take s.nodes.length = s.nodes ∧
    ∀ t : Tensor, (generate_op s ts op args).1 = Except.ok t →
      t.node = s.nodes.length := by
  by_cases h : (ts.map (fun t => t.factory)).dedup.length = 1
  · simp only [generate_op, dispatch, if_pos h]
    refine ⟨List.take_left _ _, ?_⟩
    intro t ht
    simp only [Except.ok.injEq] at ht
    rw [← ht]
  · simp only [generate_op, if_neg h]
    exact ⟨List.take_length _, fun t ht => by cases ht⟩

/-- C3: the dtype query maps the backend's integer type code through the
closed table 2↦bool, 3↦bfloat16, 4↦float16, 5↦float32, 6↦float64, 7↦int4,
8↦int8, 9↦int16, 10↦int32, 11↦int64, and every integer code outside 2..11
(including 0 and 1) fails with the unsupported-dtype error rather than
silently coercing. -/
theorem claim_C3 :
    (∀ (a : Tensor) (s : BackendState),
      Tensor.dtype a s = dtype_of_code (op_dtype s a.node)) ∧
    dtype_of_code 2 = Except.ok NPUDtype.np_bool ∧
    dtype_of_code 3 = Except.ok NPUDtype.bfloat16 ∧
    dtype_of_code 4 = Except.ok NPUDtype.float16 ∧
    dtype_of_code 5 = Except.ok NPUDtype.float32 ∧
    dtype_of_code 6 = Except.ok NPUDtype.float64 ∧
    dtype_of_code 7 = Except.ok NPUDtype.int4 ∧
    dtype_of_code 8 = Except.ok NPUDtype.int8 ∧
    dtype_of_code 9 = Except.ok NPUDtype.int16 ∧
    dtype_of_code 10 = Except.ok NPUDtype.int32 ∧
    dtype_of_code 11 = Except.ok NPUDtype.int64 ∧
    (∀ c : Int, c < 2 ∨ 11 < c →
      dtype_of_code c = Except.error TensorError.unsupportedDtype) := by
  refine ⟨fun a s => rfl, rfl, rfl, rfl, rfl, rfl, rfl, rfl, rfl, rfl, rfl, ?_⟩
  intro c h
  unfold dtype_of_code
  split_ifs <;> first | rfl | omega

/-- C3 witness: the out-of-table code 12 is rejected. -/
theorem claim_C3_witness :
    ((12 : Int) < 2 ∨ 11 < (12 : Int)) ∧
    dtype_of_code 12 = Except.error TensorError.unsupportedDtype :=
  ⟨Or.inr (by decide),
    claim_C3.2.2.2.2.2.2.2.2.2.2.2 12 (Or.inr (by decide))⟩

/-- C6: the op registry is pure and memoized — a second call returns the very
same table in the same order — and the table has a matmul entry with input
count 2 and a clamp entry with input count 1 and exactly two float parameter
types. -/
theorem claim_C6 :
    (∀ c : OpsCache, get_supported_ops ((get_supported_ops c).2) = get_supported_ops c) ∧
    (get_supported_ops ⟨none⟩).1 = (get_supported_ops ((get_supported_ops ⟨none⟩).2)).1 ∧
    (get_supported_ops ⟨none⟩).1.find? (fun o => o.name == "matmul") =
      some ⟨"matmul", 2, []⟩ ∧
    (get_supported_ops ⟨none⟩).1.find? (fun o => o.name == "clamp") =
      some ⟨"clamp", 1, [CParamType.c_float, CParamType.c_float]⟩ := by
  refine ⟨?_, rfl, rfl, rfl⟩
  intro c
  rcases c with ⟨_ | v⟩ <;> rfl

/-- C7: creating a tensor and then reading its shape returns exactly the
requested shape — the shape round-trips through the backend's parameter node
and the rank/per-dimension queries. -/
theorem claim_C7 (s : BackendState) (factory : Nat) (shape : List Nat)
    (dtypeCode : Int) :
    Tensor.shape (create_tensor s factory shape dtypeCode).1
      (create_tensor s factory shape dtypeCode).2 = shape := by
  have hrec : ((create_tensor s factory shape dtypeCode).2.nodes.getD
      (create_tensor s factory shape dtypeCode).1.node default) =
      ⟨factory, "parameter", [], [], shape, dtypeCode⟩ := by
    simp only [create_tensor, parameter]
    exact getD_append_self _ _ _ _
  simp only [Tensor.shape, op_shape_size, op_shape, hrec]
  exact range_map_getD shape 0

/-- C9: all three shape-check branches of QMatMul.run test the activation X
against (batch, inC), so a call whose X has the expected shape never raises a
shape mismatch regardless of the weight or scale shapes, and no input at all
can produce the weight- or scale-mismatch errors. -/
theorem claim_C9 (cfg : QMatMulCfg) (xShape wShape scaleShape : List Nat) :
    QMatMul.run cfg [cfg.batch, cfg.inC] wShape scaleShape = Except.ok () ∧
    (QMatMul.run cfg xShape wShape scaleShape = Except.ok () ∨
     QMatMul.run cfg xShape wShape scaleShape =
       Except.error (QErr.inputShapeMismatch xShape) ∨
     QMatMul.run cfg xShape wShape scaleShape = Except.error QErr.indexError) := by
  constructor
  · simp [QMatMul.run, npShapeAt]
  · match xShape with
    | [] => exact Or.inr (Or.inr rfl)
    | [x0] =>
      by_cases h0 : x0 = cfg.batch
      · exact Or.inr (Or.inr (by simp [QMatMul.run, npShapeAt, h0]))
      · exact Or.inr (Or.inl (by simp [QMatMul.run, npShapeAt, h0]))
    | x0 :: x1 :: rest =>
      by_cases h0 : x0 = cfg.batch
      · by_cases h1 : x1 = cfg.inC
        · exact Or.inl (by simp [QMatMul.run, npShapeAt, h0, h1])
        · exact Or.inr (Or.inl (by simp [QMatMul.run, npShapeAt, h0, h1]))
      · exact Or.inr (Or.inl (by simp [QMatMul.run, npShapeAt, h0]))

theorem take_mono_eq {α : Type} (l l0 : List α) (k j : Nat) (hk : l.take k = l0)
    (hj : j ≤ k) : l.take j = l0.take j := by
  rw [← hk, List.take_take, min_eq_left hj]

theorem sub_ok (a b : Tensor) (s : BackendState) (h : a.factory = b.factory) :
    Tensor.sub a b s =
      (Except.ok ⟨a.factory,
        (s.nodes ++ [(⟨b.factory, "negative", [b.node], [],
          (s.nodes.getD b.node default).shape,
          (s.nodes.getD b.node default).dtypeCode⟩ : NodeRecord)]).length⟩,
       ⟨(s.nodes ++ [(⟨b.factory, "negative", [b.node], [],
           (s.nodes.getD b.node default).shape,
           (s.nodes.getD b.node default).dtypeCode⟩ : NodeRecord)]) ++
         [⟨a.factory, "eltwise_add", [a.node, s.nodes.length], [],
           ((s.nodes ++ [(⟨b.factory, "negative", [b.node], [],
              (s.nodes.getD b.node default).shape,
              (s.nodes.getD b.node default).dtypeCode⟩ : NodeRecord)]).getD a.node default).shape,
           ((s.nodes ++ [(⟨b.factory, "negative", [b.node], [],
              (s.nodes.getD b.node default).shape,
              (s.nodes.getD b.node default).dtypeCode⟩ : NodeRecord)]).getD a.node default).dtypeCode⟩]⟩) := by
  have hneg : Tensor.neg b s =
      (Except.ok ⟨b.factory, s.nodes.length⟩,
        ⟨s.nodes ++ [⟨b.factory, "negative", [b.node], [],
          (s.nodes.getD b.node default).shape,
          (s.nodes.getD b.node default).dtypeCode⟩]⟩) := by
    unfold Tensor.neg
    exact generate_op_ok s [b] "negative" [] b.factory (by simp) (by simp)
  have hsub : Tensor.sub a b s =
      generate_op ⟨s.nodes ++ [⟨b.factory, "negative", [b.node], [],
          (s.nodes.getD b.node default).shape,
          (s.nodes.getD b.node default).dtypeCode⟩]⟩
        [a, ⟨b.factory, s.nodes.length⟩] "eltwise_add" [] := by
    unfold Tensor.sub
    rw [hneg]
  rw [hsub]
  exact generate_op_ok _ [a, ⟨b.factory, s.nodes.length⟩] "eltwise_add" [] a.factory
    (by simp) (by simp [h])

/-- C2: on same-owner operands, subtraction is implemented as
generate_op([a, negate(b)], "eltwise_add"): it produces the very same result
and state as first negating b and then adding, and it commits exactly two
backend nodes — one negative node on b followed by one eltwise_add node. -/
theorem claim_C2 (a b : Tensor) (s : BackendState) (h : a.factory = b.factory) :
    (Tensor.sub a b s =
      (match Tensor.neg b s with
       | (Except.ok nb, s1) => Tensor.add a nb s1
       | (Except.error e, s1) => (Except.error e, s1))) ∧
    (Tensor.sub a b s).1 = Except.ok ⟨a.factory, s.nodes.length + 1⟩ ∧
    (Tensor.sub a b s).2.nodes.length = s.nodes.length + 2 ∧
    (Tensor.sub a b s).2.nodes.take s.nodes.length = s.nodes ∧
    ((Tensor.sub a b s).2.nodes.getD s.nodes.length default).op = "negative" ∧
    ((Tensor.sub a b s).2.nodes.getD s.nodes.length default).inputs = [b.node] ∧
    ((Tensor.sub a b s).2.nodes.getD (s.nodes.length + 1) default).op = "eltwise_add" ∧
    ((Tensor.sub a b s).2.nodes.getD (s.nodes.length + 1) default).inputs =
      [a.node, s.nodes.length] := by
  have hs := sub_ok a b s h
  refine ⟨rfl, ?_, ?_, ?_, ?_, ?_, ?_, ?_⟩
  · rw [hs]
    simp
  · rw [hs]
    simp
  · rw [hs]
    rw [List.append_assoc]
    exact List.take_left _ _
  · rw [hs]
    rw [List.append_assoc, List.singleton_append, getD_append_self]
  · rw [hs]
    rw [List.append_assoc, List.singleton_append, getD_append_self]
  · rw [hs]
    have hl : (s.nodes ++ [(⟨b.factory, "negative", [b.node], [],
        (s.nodes.getD b.node default).shape,
        (s.nodes.getD b.node default).dtypeCode⟩ : NodeRecord)]).length =
        s.nodes.length + 1 := by simp
    rw [← hl, getD_append_self]
  · rw [hs]
    have hl : (s.nodes ++ [(⟨b.factory, "negative", [b.node], [],
        (s.nodes.getD b.node default).shape,
        (s.nodes.getD b.node default).dtypeCode⟩ : NodeRecord)]).length =
        s.nodes.length + 1 := by simp
    rw [← hl, getD_append_self]

/-- C2 witness: a concrete same-owner subtraction on a two-node graph. -/
theorem claim_C2_witness :
    (Tensor.mk 0 0).factory = (Tensor.mk 0 1).factory ∧
    (Tensor.sub ⟨0, 0⟩ ⟨0, 1⟩
      ⟨[⟨0, "parameter", [], [], [2], 5⟩, ⟨0, "parameter", [], [], [2], 5⟩]⟩).1 =
      Except.ok ⟨0, 3⟩ :=
  ⟨rfl, (claim_C2 ⟨0, 0⟩ ⟨0, 1⟩
    ⟨[⟨0, "parameter", [], [], [2], 5⟩, ⟨0, "parameter", [], [], [2], 5⟩]⟩ rfl).2.1⟩

/-- C1 counterexample: subtracting tensors owned by two distinct factories
fails with the ownership error, but only after one foreign dispatch — the
negation of the right operand — has already been committed to the backend
graph, so the claim that no factory operation (including negation) is
dispatched before the failure is false. -/
theorem claim_C1_counterexample :
    (Tensor.sub ⟨0, 0⟩ ⟨1, 1⟩
      ⟨[⟨0, "parameter", [], [], [2], 5⟩, ⟨1, "parameter", [], [], [2], 5⟩]⟩).1 =
      Except.error TensorError.ownershipMismatch ∧
    (Tensor.sub ⟨0, 0⟩ ⟨1, 1⟩
      ⟨[⟨0, "parameter", [], [], [2], 5⟩, ⟨1, "parameter", [], [], [2], 5⟩]⟩).2 ≠
      ⟨[⟨0, "parameter", [], [], [2], 5⟩, ⟨1, "parameter", [], [], [2], 5⟩]⟩ ∧
    (Tensor.sub ⟨0, 0⟩ ⟨1, 1⟩
      ⟨[⟨0, "parameter", [], [], [2], 5⟩, ⟨1, "parameter", [], [], [2], 5⟩]⟩).2.nodes.length = 3 ∧
    ((Tensor.sub ⟨0, 0⟩ ⟨1, 1⟩
      ⟨[⟨0, "parameter", [], [], [2], 5⟩, ⟨1, "parameter", [], [], [2], 5⟩]⟩).2.nodes.getD 2
        default).op = "negative" := by
  refine ⟨rfl, ?_, rfl, rfl⟩
  decide

/-- C1 (amended): combining handles from two distinct factories fails with the
ownership error in every operator; addition, multiplication, division and
matrix multiplication dispatch nothing before failing (the state is returned
untouched), while subtraction first dispatches exactly one negation on the
right operand's factory and only then fails. -/
theorem claim_C1_amended (a b : Tensor) (s : BackendState)
    (h : a.factory ≠ b.factory) :
    Tensor.add a b s = (Except.error TensorError.ownershipMismatch, s) ∧
    Tensor.mul a b s = (Except.error TensorError.ownershipMismatch, s) ∧
    Tensor.div a b s = (Except.error TensorError.ownershipMismatch, s) ∧
    Tensor.matmul a b s = (Except.error TensorError.ownershipMismatch, s) ∧
    (Tensor.sub a b s).1 = Except.error TensorError.ownershipMismatch ∧
    (Tensor.sub a b s).2.nodes = s.nodes ++
      [⟨b.factory, "negative", [b.node], [],
        (s.nodes.getD b.node default).shape,
        (s.nodes.getD b.node default).dtypeCode⟩] := by
  have hcond : ¬ (([a, b].map (fun t => t.factory)).dedup.length = 1) := by
    simp only [List.map_cons, List.map_nil]
    rw [List.dedup_cons_of_not_mem (by simp [h])]
    simp
  have herr : ∀ op : String, generate_op s [a, b] op [] =
      (Except.error TensorError.ownershipMismatch, s) := by
    intro op
    unfold generate_op
    rw [if_neg hcond]
  have hneg : Tensor.neg b s =
      (Except.ok ⟨b.factory, s.nodes.length⟩,
        ⟨s.nodes ++ [(⟨b.factory, "negative", [b.node], [],
          (s.nodes.getD b.node default).shape,
          (s.nodes.getD b.node default).dtypeCode⟩ : NodeRecord)]⟩) := by
    unfold Tensor.neg
    exact generate_op_ok s [b] "negative" [] b.factory (by simp) (by simp)
  have hcond2 : ¬ ((([a, ⟨b.factory, s.nodes.length⟩] : List Tensor).map
      (fun t => t.factory)).dedup.length = 1) := by
    simp only [List.map_cons, List.map_nil]
    rw [List.dedup_cons_of_not_mem (by simp [h])]
    simp
  have hsubG : Tensor.sub a b s =
      generate_op ⟨s.nodes ++ [(⟨b.factory, "negative", [b.node], [],
          (s.nodes.getD b.node default).shape,
          (s.nodes.getD b.node default).dtypeCode⟩ : NodeRecord)]⟩
        [a, ⟨b.factory, s.nodes.length⟩] "eltwise_add" [] := by
    unfold Tensor.sub
    rw [hneg]
  have hsub2 : Tensor.sub a b s =
      (Except.error TensorError.ownershipMismatch,
        ⟨s.nodes ++ [(⟨b.factory, "negative", [b.node], [],
          (s.nodes.getD b.node default).shape,
          (s.nodes.getD b.node default).dtypeCode⟩ : NodeRecord)]⟩) := by
    rw [hsubG]
    unfold generate_op
    rw [if_neg hcond2]
  refine ⟨herr ("eltwise_add"), herr ("eltwise_mul"), herr ("eltwise_div"),
    herr ("matmul"), ?_, ?_⟩
  · rw [hsub2]
  · rw [hsub2]

/-- C1 amended witness: concrete cross-factory operands on the empty graph. -/
theorem claim_C1_amended_witness :
    (Tensor.mk 0 0).factory ≠ (Tensor.mk 1 1).factory ∧
    Tensor.add ⟨0, 0⟩ ⟨1, 1⟩ ⟨[]⟩ =
      (Except.error TensorError.ownershipMismatch, ⟨[]⟩) :=
  ⟨by decide, (claim_C1_amended ⟨0, 0⟩ ⟨1, 1⟩ ⟨[]⟩ (by decide)).1⟩

/-- C4: transposing a rank ≥ 2 tensor commits exactly one transpose node whose
permutation parameter is the identity order except that the last two axes are
swapped, and on a (2,3,4,5) parameter node the resulting shape is (2,3,5,4). -/
theorem claim_C4 (a : Tensor) (s : BackendState)
    (h : 2 ≤ (Tensor.shape a s).length) :
    (∃ io : List Nat,
      Tensor.T a s =
        (Except.ok ⟨a.factory, s.nodes.length⟩,
          ⟨s.nodes ++ [⟨a.factory, "transpose", [a.node], [Param.natListParam io],
            io.map (fun i => (s.nodes.getD a.node default).shape.getD i 0),
            (s.nodes.getD a.node default).dtypeCode⟩]⟩) ∧
      io.length = (Tensor.shape a s).length ∧
      (∀ i, i < (Tensor.shape a s).length - 2 → io.getD i 0 = i) ∧
      io.getD ((Tensor.shape a s).length - 2) 0 = (Tensor.shape a s).length - 1 ∧
      io.getD ((Tensor.shape a s).length - 1) 0 = (Tensor.shape a s).length - 2) ∧
    Tensor.shape
      (okD (Tensor.T (create_tensor ⟨[]⟩ 0 [2, 3, 4, 5] 5).1
          (create_tensor ⟨[]⟩ 0 [2, 3, 4, 5] 5).2).1 ⟨0, 0⟩)
      (Tensor.T (create_tensor ⟨[]⟩ 0 [2, 3, 4, 5] 5).1
          (create_tensor ⟨[]⟩ 0 [2, 3, 4, 5] 5).2).2 = [2, 3, 5, 4] := by
  constructor
  · refine ⟨((List.range (Tensor.shape a s).length).set
        ((Tensor.shape a s).length - 1) ((Tensor.shape a s).length - 2)).set
        ((Tensor.shape a s).length - 2) ((Tensor.shape a s).length - 1),
      ?_, ?_, ?_, ?_, ?_⟩
    · have hnot : ¬ (Tensor.shape a s).length < 2 := not_lt.mpr h
      have hT : Tensor.T a s = generate_op s [a] "transpose"
          [Param.natListParam (((List.range (Tensor.shape a s).length).set
            ((Tensor.shape a s).length - 1) ((Tensor.shape a s).length - 2)).set
            ((Tensor.shape a s).length - 2) ((Tensor.shape a s).length - 1))] := by
        simp only [Tensor.T]
        rw [if_neg hnot]
      rw [hT]
      exact generate_op_ok s [a] "transpose" _ a.factory (by simp) (by simp)
    · simp [List.length_set, List.length_range]
    · intro i hi
      have h1 : (Tensor.shape a s).length - 2 ≠ i := by omega
      have h2 : (Tensor.shape a s).length - 1 ≠ i := by omega
      rw [List.getD_eq_getElem?_getD, List.getElem?_set_ne h1,
        List.getElem?_set_ne h2, List.getElem?_range (by omega)]
      rfl
    · rw [List.getD_eq_getElem?_getD, List.getElem?_set_self
        (by simp only [List.length_set, List.length_range]; omega)]
      rfl
    · have hne : (Tensor.shape a s).length - 2 ≠ (Tensor.shape a s).length - 1 := by
        omega
      rw [List.getD_eq_getElem?_getD, List.getElem?_set_ne hne,
        List.getElem?_set_self (by simp only [List.length_range]; omega),
        Option.getD_some]
  · decide

/-- C4 witness: the concrete (2,3,4,5) parameter node has rank 4 and its
transpose has shape (2,3,5,4). -/
theorem claim_C4_witness :
    2 ≤ (Tensor.shape (create_tensor ⟨[]⟩ 0 [2, 3, 4, 5] 5).1
        (create_tensor ⟨[]⟩ 0 [2, 3, 4, 5] 5).2).length ∧
    Tensor.shape
      (okD (Tensor.T (create_tensor ⟨[]⟩ 0 [2, 3, 4, 5] 5).1
          (create_tensor ⟨[]⟩ 0 [2, 3, 4, 5] 5).2).1 ⟨0, 0⟩)
      (Tensor.T (create_tensor ⟨[]⟩ 0 [2, 3, 4, 5] 5).1
          (create_tensor ⟨[]⟩ 0 [2, 3, 4, 5] 5).2).2 = [2, 3, 5, 4] :=
  ⟨by decide,
    (claim_C4 (create_tensor ⟨[]⟩ 0 [2, 3, 4, 5] 5).1
      (create_tensor ⟨[]⟩ 0 [2, 3, 4, 5] 5).2 (by decide)).2⟩

/-- C5: on a (4,5) tensor len() returns 20, but on a rank-0 tensor of shape ()
`np.product` of the empty shape list is the float scalar 1.0, so len() raises
TypeError instead of returning the integer 1. -/
theorem claim_C5_eval :
    Tensor.len_call (create_tensor ⟨[]⟩ 0 [4, 5] 5).1
      (create_tensor (create_tensor ⟨[]⟩ 0 [4, 5] 5).2 0 [] 5).2 = Except.ok 20 ∧
    Tensor.shape (create_tensor (create_tensor ⟨[]⟩ 0 [4, 5] 5).2 0 [] 5).1
      (create_tensor (create_tensor ⟨[]⟩ 0 [4, 5] 5).2 0 [] 5).2 = [] ∧
    Tensor.len_method (create_tensor (create_tensor ⟨[]⟩ 0 [4, 5] 5).2 0 [] 5).1
      (create_tensor (create_tensor ⟨[]⟩ 0 [4, 5] 5).2 0 [] 5).2 =
      NpScalar.floatScalar 1 ∧
    Tensor.len_call (create_tensor (create_tensor ⟨[]⟩ 0 [4, 5] 5).2 0 [] 5).1
      (create_tensor (create_tensor ⟨[]⟩ 0 [4, 5] 5).2 0 [] 5).2 =
      Except.error TensorError.typeError :=
  ⟨rfl, rfl, rfl, rfl⟩

/-- C8: on a nonempty list of same-owner handles, generate_op extracts the
node references in input order, dispatches the factory operation named op on
them followed by the scalar parameters in the caller's order, and returns a
new handle wrapping the fresh node whose owner is the shared owner. -/
theorem claim_C8 (s : BackendState) (ts : List Tensor) (op : String)
    (args : List Param) (f : Nat) (hne : ts ≠ []) (hf : ∀ t ∈ ts, t.factory = f) :
    (generate_op s ts op args).1 = Except.ok ⟨f, s.nodes.length⟩ ∧
    (generate_op s ts op args).2 =
      ⟨s.nodes ++ [⟨f, op, ts.map (fun t => t.node), args,
        opOutShape op ((ts.map (fun t => t.node)).map
          (fun n => (s.nodes.getD n default).shape)) args,
        (s.nodes.getD ((ts.map (fun t => t.node)).headD 0) default).dtypeCode⟩]⟩ := by
  rw [generate_op_ok s ts op args f hne hf]
  exact ⟨rfl, rfl⟩

/-- C8 witness: a concrete one-element operand list. -/
theorem claim_C8_witness :
    (([(⟨3, 0⟩ : Tensor)] : List Tensor) ≠ []) ∧
    (∀ t ∈ ([(⟨3, 0⟩ : Tensor)] : List Tensor), t.factory = 3) ∧
    (generate_op ⟨[⟨3, "parameter", [], [], [2], 5⟩]⟩ [⟨3, 0⟩] "relu" []).1 =
      Except.ok ⟨3, 1⟩ :=
  ⟨by decide, by decide,
    (claim_C8 ⟨[⟨3, "parameter", [], [], [2], 5⟩]⟩ [⟨3, 0⟩] "relu" [] 3
      (by decide) (by decide)).1⟩

theorem genop_frame_ops (s : BackendState) (ts : List Tensor) (op : String)
    (args : List Param) (opnds : List Nat)
    (hl : ∀ n ∈ opnds, n < s.nodes.length) :
    preservesGraph s (generate_op s ts op args) ∧
    freshResult (generate_op s ts op args) opnds := by
  obtain ⟨hp, hf⟩ := generate_op_frame s ts op args
  refine ⟨hp, ?_⟩
  unfold freshResult
  intro t ht n hn
  rw [hf t ht]
  exact Nat.ne_of_gt (hl n hn)

theorem sub_frame (a b : Tensor) (s : BackendState) (opnds : List Nat)
    (hl : ∀ n ∈ opnds, n < s.nodes.length) :
    preservesGraph s (Tensor.sub a b s) ∧ freshResult (Tensor.sub a b s) opnds := by
  have hneg : Tensor.neg b s =
      (Except.ok ⟨b.factory, s.nodes.length⟩,
        ⟨s.nodes ++ [(⟨b.factory, "negative", [b.node], [],
          (s.nodes.getD b.node default).shape,
          (s.nodes.getD b.node default).dtypeCode⟩ : NodeRecord)]⟩) := by
    unfold Tensor.neg
    exact generate_op_ok s [b] "negative" [] b.factory (by simp) (by simp)
  have hsub : Tensor.sub a b s =
      generate_op ⟨s.nodes ++ [(⟨b.factory, "negative", [b.node], [],
          (s.nodes.getD b.node default).shape,
          (s.nodes.getD b.node default).dtypeCode⟩ : NodeRecord)]⟩
        [a, ⟨b.factory, s.nodes.length⟩] "eltwise_add" [] := by
    unfold Tensor.sub
    rw [hneg]
  rw [hsub]
  obtain ⟨hp, hf⟩ := generate_op_frame
    ⟨s.nodes ++ [(⟨b.factory, "negative", [b.node], [],
      (s.nodes.getD b.node default).shape,
      (s.nodes.getD b.node default).dtypeCode⟩ : NodeRecord)]⟩
    [a, ⟨b.factory, s.nodes.length⟩] "eltwise_add" []
  constructor
  · unfold preservesGraph
    have hle : s.nodes.length ≤ (s.nodes ++ [(⟨b.factory, "negative", [b.node], [],
        (s.nodes.getD b.node default).shape,
        (s.nodes.getD b.node default).dtypeCode⟩ : NodeRecord)]).length := by
      simp
    have htk := take_mono_eq _ _ _ _ hp hle
    rw [htk]
    exact List.take_left _ _
  · unfold freshResult
    intro t ht n hn
    rw [hf t ht]
    simp only [List.length_append, List.length_cons, List.length_nil]
    have := hl n hn
    omega

theorem t_frame (a : Tensor) (s : BackendState) (opnds : List Nat)
    (hl : ∀ n ∈ opnds, n < s.nodes.length) :
    preservesGraph s (Tensor.T a s) ∧ freshResult (Tensor.T a s) opnds := by
  by_cases hr : (Tensor.shape a s).length < 2
  · have hT : Tensor.T a s = (Except.error TensorError.indexError, s) := by
      simp only [Tensor.T]
      rw [if_pos hr]
    rw [hT]
    exact ⟨List.take_length _, fun t ht => nomatch ht⟩
  · have hT : Tensor.T a s = generate_op s [a] "transpose"
        [Param.natListParam (((List.range (Tensor.shape a s).length).set
          ((Tensor.shape a s).length - 1) ((Tensor.shape a s).length - 2)).set
          ((Tensor.shape a s).length - 2) ((Tensor.shape a s).length - 1))] := by
      simp only [Tensor.T]
      rw [if_neg hr]
    rw [hT]
    exact genop_frame_ops s [a] "transpose" _ opnds hl

/-- C10: every operator leaves the operand handles and all previously
committed graph records unchanged (the graph is only appended to), and a
successful result is always a freshly constructed handle whose node reference
differs from every operand's node reference. -/
theorem claim_C10 (a b : Tensor) (axis : Int) (s : BackendState)
    (ha : a.node < s.nodes.length) (hb : b.node < s.nodes.length) :
    (preservesGraph s (Tensor.add a b s) ∧
      freshResult (Tensor.add a b s) [a.node, b.node]) ∧
    (preservesGraph s (Tensor.sub a b s) ∧
      freshResult (Tensor.sub a b s) [a.node, b.node]) ∧
    (preservesGraph s (Tensor.mul a b s) ∧
      freshResult (Tensor.mul a b s) [a.node, b.node]) ∧
    (preservesGraph s (Tensor.div a b s) ∧
      freshResult (Tensor.div a b s) [a.node, b.node]) ∧
    (preservesGraph s (Tensor.matmul a b s) ∧
      freshResult (Tensor.matmul a b s) [a.node, b.node]) ∧
    (preservesGraph s (Tensor.neg a s) ∧
      freshResult (Tensor.neg a s) [a.node]) ∧
    (preservesGraph s (Tensor.T a s) ∧
      freshResult (Tensor.T a s) [a.node]) ∧
    (preservesGraph s (Tensor.squeeze a s) ∧
      freshResult (Tensor.squeeze a s) [a.node]) ∧
    (preservesGraph s (Tensor.unsqueeze a axis s) ∧
      freshResult (Tensor.unsqueeze a axis s) [a.node]) := by
  have hab : ∀ n ∈ [a.node, b.node], n < s.nodes.length := by
    intro n hn
    rcases List.mem_cons.mp hn with h1 | h1
    · subst h1
      exact ha
    · rcases List.mem_cons.mp h1 with h2 | h2
      · subst h2
        exact hb
      · cases h2
  have haa : ∀ n ∈ [a.node], n < s.nodes.length := by
    intro n hn
    rcases List.mem_cons.mp hn with h1 | h1
    · subst h1
      exact ha
    · cases h1
  exact ⟨genop_frame_ops s [a, b] "eltwise_add" [] _ hab,
    sub_frame a b s _ hab,
    genop_frame_ops s [a, b] "eltwise_mul" [] _ hab,
    genop_frame_ops s [a, b] "eltwise_div" [] _ hab,
    genop_frame_ops s [a, b] "matmul" [] _ hab,
    genop_frame_ops s [a] "negative" [] _ haa,
    t_frame a s _ haa,
    genop_frame_ops s [a] "squeeze" [] _ haa,
    genop_frame_ops s [a] "unsqueeze" [Param.intParam axis] _ haa⟩

/-- C10 witness: a concrete addition on a one-node graph preserves the graph
record of the operand. -/
theorem claim_C10_witness :
    ((0 : Nat) < 1 ∧ (0 : Nat) < 1) ∧
    preservesGraph ⟨[⟨0, "parameter", [], [], [2], 5⟩]⟩
      (Tensor.add ⟨0, 0⟩ ⟨0, 0⟩ ⟨[⟨0, "parameter", [], [], [2], 5⟩]⟩) :=
  ⟨⟨by decide, by decide⟩,
    (claim_C10 ⟨0, 0⟩ ⟨0, 0⟩ 0 ⟨[⟨0, "parameter", [], [], [2], 5⟩]⟩
      (by decide) (by decide)).1.1⟩
